import Mathlib

/-!
Verification of the CNPJ signer-lookup application (`app.py`).

The development shallowly embeds the core functions of the source:
the identifier normalizer (`only_digits`, `cnpj_format`, `cnpj_is_valid`),
the officer classifier (`extract_likely_signers` over `LIKELY_SIGNER_KEYWORDS`),
the ReceitaWS response normalizer (`normalize_receitaws`), the provider
resolution chain (`try_all_providers`) and the batch-mode row filter of
`render_batch_mode`.

Modelling conventions:
* Python strings are Lean `String`s; digit characters are modelled as the ten
  ASCII decimal digits (`Char.isDigit`), which is the alphabet the program's
  regular expressions and identifiers actually use.
* Python dictionaries read through `.get` with a fixed set of keys are
  modelled as structures of `Option String` fields; a key that is absent and a
  key bound to `None` both become `none`, exactly as `.get` conflates them.
* A Python `a or b` on strings/options treats `None` and the empty string as
  falsy; `orStr` / `orOpt` reproduce this.
* The network adapters are modelled by their observable outcome: a combined
  fetch-plus-normalize either yields data and an officer list, or raises with
  a message (`Outcome`).  The resolution chain additionally records, in order,
  which adapter fetches it invoked (`calls`), so that "a provider was never
  invoked" is a statement about the model.
* The Python `dict` of per-provider errors (string keys, insertion ordered)
  is modelled as an association list in insertion order.
-/

/-- Source `only_digits` (app.py line 87): remove every non-digit character. -/
def onlyDigits (s : String) : String :=
  String.mk (s.data.filter Char.isDigit)

/-- Left zero-padding to width 14, as Python `str.zfill(14)` on a digit string. -/
def zfill14 (d : List Char) : List Char :=
  List.replicate (14 - d.length) '0' ++ d

/-- Source `cnpj_format` (app.py line 90): re-normalize, pad to 14 digits and
interleave the canonical punctuation. -/
def cnpjFormat (digits14 : String) : String :=
  let d := zfill14 (onlyDigits digits14).data
  String.mk (d.take 2 ++ '.' ::
    ((d.drop 2).take 3 ++ '.' ::
      ((d.drop 5).take 3 ++ '/' ::
        ((d.drop 8).take 4 ++ '-' :: (d.drop 12).take 2))))

/-- Numeric value of a digit character, as Python `int(n)` on a digit. -/
def digitVal (c : Char) : Nat :=
  c.toNat - '0'.toNat

/-- The weight list `w12` of `cnpj_is_valid` (app.py line 99). -/
def cnpjW12 : List Nat := [5, 4, 3, 2, 9, 8, 7, 6, 5, 4, 3, 2]

/-- The weight list `w13` of `cnpj_is_valid` (app.py line 100). -/
def cnpjW13 : List Nat := [6, 5, 4, 3, 2, 9, 8, 7, 6, 5, 4, 3, 2]

/-- Source inner `calc` of `cnpj_is_valid` (app.py line 98): weighted sum of the
digits modulo 11, weights chosen by input length, remainder below 2 giving the
digit 0 and otherwise 11 minus the remainder, returned as a digit character. -/
def calcDV (nums : List Char) : Char :=
  let ws := if nums.length == 12 then cnpjW12 else cnpjW13
  let s := ((nums.zip ws).map (fun p => digitVal p.1 * p.2)).sum
  let r := s % 11
  if r < 2 then '0' else Char.ofNat ('0'.toNat + (11 - r))

/-- Source `cnpj_is_valid` (app.py line 94): false on digit content of length
other than 14 or on fourteen identical digits, otherwise compare the last two
digits with the two computed check digits. -/
def cnpjIsValid (cnpj : String) : Bool :=
  let d := (onlyDigits cnpj).data
  if d.length != 14 then false
  else if d == List.replicate 14 (d.headD '0') then false
  else
    let d1 := calcDV (d.take 12)
    let d2 := calcDV (d.take 12 ++ [d1])
    d.drop 12 == [d1, d2]

/-- Modelled from the spec: the reference modulo-11 pass on numeric digits with
an explicit weight list, remainder r giving 0 when below 2 and 11 - r else. -/
def specDV (base ws : List Nat) : Nat :=
  let r := ((base.zip ws).map (fun p => p.1 * p.2)).sum % 11
  if r < 2 then 0 else 11 - r

/-- Modelled from the spec: both reference check digits of a 12-digit base,
the first computed digit being appended to the base before the second pass. -/
def specCheckDigits (base12 : List Nat) : Nat × Nat :=
  let d1 := specDV base12 cnpjW12
  let d2 := specDV (base12 ++ [d1]) cnpjW13
  (d1, d2)

/-- Modelled from the spec, read literally: the spec says the first computed
digit is PREPENDED to the 12-digit base before the second pass, so here the
second pass runs on the first digit followed by the base. -/
def specCheckDigitsPrepend (base12 : List Nat) : Nat × Nat :=
  let d1 := specDV base12 cnpjW12
  let d2 := specDV (d1 :: base12) cnpjW13
  (d1, d2)

/-- Modelled from the spec: the canonical punctuated form NN.NNN.NNN/NNNN-NN
built from fourteen digits in order. -/
def canonicalForm14 (d : List Char) : String :=
  String.mk (d.take 2 ++ '.' ::
    ((d.drop 2).take 3 ++ '.' ::
      ((d.drop 5).take 3 ++ '/' ::
        ((d.drop 8).take 4 ++ '-' :: (d.drop 12).take 2))))

/-- Python truthiness of `a or b` for an optional string: `None` and the empty
string are falsy. -/
def orStr (a : Option String) (b : String) : String :=
  match a with
  | none => b
  | some s => if s = "" then b else s

/-- Python `a or b` where both sides are optional strings. -/
def orOpt (a b : Option String) : Option String :=
  match a with
  | none => b
  | some s => if s = "" then b else some s

/-- Characters stripped by Python `str.strip()` (the ASCII whitespace the role
strings can contain). -/
def isPySpace (c : Char) : Bool :=
  c == ' ' || c == '\t' || c == '\n' || c == '\r' || c.toNat == 11 || c.toNat == 12

/-- Python `str.strip()` on the character list. -/
def stripChars (l : List Char) : List Char :=
  ((l.dropWhile isPySpace).reverse.dropWhile isPySpace).reverse

/-- Python `str.lower()` restricted to the alphabet of the program: ASCII
letters and the Latin-1 uppercase letters of Portuguese both map down by 32. -/
def lowerChar (c : Char) : Char :=
  if 65 ≤ c.toNat ∧ c.toNat ≤ 90 then Char.ofNat (c.toNat + 32)
  else if 192 ≤ c.toNat ∧ c.toNat ≤ 222 ∧ c.toNat ≠ 215 then Char.ofNat (c.toNat + 32)
  else c

/-- Lowercase an entire character list. -/
def lowerChars (l : List Char) : List Char :=
  l.map lowerChar

/-- Does the second list start with the first one? -/
def startsWithL : List Char → List Char → Bool
  | [], _ => true
  | _ :: _, [] => false
  | a :: as, b :: bs => a == b && startsWithL as bs

/-- Python `needle in hay` substring containment on character lists. -/
def hasSub (needle : List Char) : List Char → Bool
  | [] => startsWithL needle []
  | c :: cs => startsWithL needle (c :: cs) || hasSub needle cs

/-- Source `LIKELY_SIGNER_KEYWORDS` (app.py line 36). -/
def LIKELY_SIGNER_KEYWORDS : List String :=
  ["administrador", "administradora",
   "sócio-administrador", "sócio administrador",
   "diretor", "diretora",
   "presidente", "presidenta",
   "procurador", "procuradora",
   "gerente", "gerenta",
   "representante", "sócio gerente"]

/-- A QSA entry as read by `extract_likely_signers`: the six keys it consults,
each possibly absent or bound to `None`. -/
structure Officer where
  nome_socio : Option String := none
  nome : Option String := none
  nome_rep_legal : Option String := none
  qualificacao_socio : Option String := none
  qualificacao : Option String := none
  qual : Option String := none
deriving DecidableEq

/-- A classified officer row, as built by `extract_likely_signers`. -/
structure ClassifiedOfficer where
  nome : String
  qualificacao : String
  provavel_assinante : Bool
deriving DecidableEq

/-- Name fallback chain of `extract_likely_signers` (app.py line 126). -/
def officerNome (it : Officer) : String :=
  orStr it.nome_socio (orStr it.nome (orStr it.nome_rep_legal ""))

/-- Role fallback chain of `extract_likely_signers` (app.py line 127). -/
def officerQual (it : Officer) : String :=
  orStr it.qualificacao_socio (orStr it.qualificacao (orStr it.qual ""))

/-- The per-item body of `extract_likely_signers` (app.py lines 126-133):
strip and lower the role, substitute placeholders for empty fields, and flag a
likely signer when some keyword occurs in the lowered role. -/
def classifyOfficer (it : Officer) : ClassifiedOfficer :=
  let nome := officerNome it
  let qual := officerQual it
  let cargo := lowerChars (stripChars qual.data)
  { nome := if nome = "" then "(sem nome)" else nome,
    qualificacao := if qual = "" then "(sem qualificação)" else qual,
    provavel_assinante := LIKELY_SIGNER_KEYWORDS.any (fun k => hasSub k.data cargo) }

/-- Source `extract_likely_signers` (app.py line 123): classify every entry in
order (`qsa_list or []` makes `None` the empty list, which the list type
already covers). -/
def extractLikelySigners (qsa_list : List Officer) : List ClassifiedOfficer :=
  qsa_list.map classifyOfficer

/-- A ReceitaWS `qsa` entry: the two keys `normalize_receitaws` reads. -/
structure RwsEntry where
  nome : Option String := none
  qual : Option String := none
deriving DecidableEq

/-- A ReceitaWS response body: the keys `normalize_receitaws` reads. -/
structure RwsRaw where
  qsa : Option (List RwsEntry) := none
  nome : Option String := none
  porte : Option String := none
  uf : Option String := none
  estado : Option String := none
  municipio : Option String := none
  cep : Option String := none
deriving DecidableEq

/-- The `estabelecimento` sub-mapping built by `normalize_receitaws`. -/
structure RwsEstabelecimento where
  estado : Option String
  cidade : Option String
  cep : Option String
deriving DecidableEq

/-- The basic compatible data mapping built by `normalize_receitaws`. -/
structure RwsBase where
  razao_social : Option String
  porte : Option String
  estabelecimento : RwsEstabelecimento
deriving DecidableEq

/-- Source `normalize_receitaws` (app.py line 175): remap each `qsa` entry to
nome / qualificacao (with `qual` becoming `qualificacao`) and rebuild a basic
compatible data mapping. -/
def normalizeReceitaws (raw : RwsRaw) : RwsBase × List Officer :=
  let qsa := raw.qsa.getD []
  let norm := qsa.map (fun i => ({ nome := i.nome, qualificacao := i.qual } : Officer))
  let base : RwsBase :=
    { razao_social := raw.nome,
      porte := raw.porte,
      estabelecimento :=
        { estado := orOpt raw.uf raw.estado,
          cidade := raw.municipio,
          cep := raw.cep } }
  (base, norm)

/-- Observable outcome of one adapter's fetch-plus-normalize: either data and
an officer list, or an exception carrying a message. -/
inductive Outcome (ρ : Type) where
  | ok (raw : ρ) (qsa : List Officer)
  | err (msg : String)
deriving DecidableEq

/-- The environment a call to `try_all_providers` runs in: whether the gateway
is configured, and what each adapter's fetch-plus-normalize would yield. -/
structure Providers (ρ : Type) where
  gatewayConfigured : Bool
  gateway : Outcome ρ
  brasilapi : Outcome ρ
  receitaws : Outcome ρ
deriving DecidableEq

/-- Return value of `try_all_providers`, instrumented with the ordered list of
adapter fetches the call performed (`calls`), so that non-invocation of an
adapter is expressible.  `errors` is the insertion-ordered error dictionary. -/
structure ResolutionResult (ρ : Type) where
  raw : ρ
  qsa : List Officer
  source : String
  errors : List (String × String)
  calls : List String
deriving DecidableEq

/-- Step 3 of `try_all_providers` (app.py lines 210-221): when alternates are
allowed, try ReceitaWS, return its result when it has officers, and otherwise
fall back to the best data so far with source "desconhecido". -/
def alternateStep {ρ : Type} (alt : Outcome ρ) (tryAlternatives : Bool) (raw2 : ρ)
    (qsa : List Officer) (errors : List (String × String)) (calls : List String) :
    ResolutionResult ρ :=
  if tryAlternatives then
    match alt with
    | .ok raw3 qsa2 =>
      if qsa2.isEmpty then
        { raw := raw2, qsa := qsa, source := "desconhecido", errors := errors,
          calls := calls ++ ["receitaws"] }
      else
        { raw := raw3, qsa := qsa2, source := "receitaws", errors := errors,
          calls := calls ++ ["receitaws"] }
    | .err m =>
      { raw := raw2, qsa := qsa, source := "desconhecido",
        errors := errors ++ [("receitaws", m)], calls := calls ++ ["receitaws"] }
  else
    { raw := raw2, qsa := qsa, source := "desconhecido", errors := errors, calls := calls }

/-- Step 2 of `try_all_providers` (app.py lines 200-208): try BrasilAPI; its
result is returned when it has officers or alternates are disabled; on an
exception the best data degrades to empty and the chain continues. -/
def primaryStep {ρ : Type} (empty : ρ) (pri alt : Outcome ρ) (tryAlternatives : Bool)
    (errors : List (String × String)) (calls : List String) : ResolutionResult ρ :=
  match pri with
  | .ok raw2 qsa =>
    if !qsa.isEmpty || !tryAlternatives then
      { raw := raw2, qsa := qsa, source := "brasilapi", errors := errors,
        calls := calls ++ ["brasilapi"] }
    else
      alternateStep alt tryAlternatives raw2 qsa errors (calls ++ ["brasilapi"])
  | .err m =>
    alternateStep alt tryAlternatives empty [] (errors ++ [("brasilapi", m)])
      (calls ++ ["brasilapi"])

/-- Source `try_all_providers` (app.py line 188): gateway first when it is
configured, stopping only on a non-empty officer list; then BrasilAPI; then,
when allowed, ReceitaWS; finally the degraded "desconhecido" result.  `empty`
is the empty data mapping the source writes as a literal. -/
def tryAllProviders {ρ : Type} (empty : ρ) (p : Providers ρ) (tryAlternatives : Bool) :
    ResolutionResult ρ :=
  if p.gatewayConfigured then
    match p.gateway with
    | .ok raw qsa =>
      if qsa.isEmpty then
        primaryStep empty p.brasilapi p.receitaws tryAlternatives [] ["gateway"]
      else
        { raw := raw, qsa := qsa, source := "gateway", errors := [], calls := ["gateway"] }
    | .err m =>
      primaryStep empty p.brasilapi p.receitaws tryAlternatives [("gateway", m)] ["gateway"]
  else
    primaryStep empty p.brasilapi p.receitaws tryAlternatives [] []

/-- Error dictionary accumulated by the gateway step alone. -/
def gatewayErrors {ρ : Type} (p : Providers ρ) : List (String × String) :=
  if p.gatewayConfigured then
    match p.gateway with
    | .ok _ _ => []
    | .err m => [("gateway", m)]
  else []

/-- Call trace of the gateway step alone. -/
def gatewayCalls {ρ : Type} (p : Providers ρ) : List String :=
  if p.gatewayConfigured then ["gateway"] else []

/-- Batch-mode row filter of `render_batch_mode` (app.py lines 328-329): map
each value of the `cnpj` column through the normalizer and keep exactly the
rows whose digit content has length 14; `try_all_providers` is then called
once per kept row. -/
def batchCnpjs (col : List String) : List String :=
  (col.map onlyDigits).filter (fun c => c.length == 14)

/-- A sample officer entry used to instantiate the chain theorems. -/
def officerAna : Officer :=
  { nome := some "Ana", qualificacao := some "Diretora" }

/-- A sample officer entry in ReceitaWS shape. -/
def rwsEntryBia : RwsEntry :=
  { nome := some "Bia", qual := some "Sócio-Administrador" }

/-- A sample ReceitaWS response with one officer. -/
def rwsRawSample : RwsRaw :=
  { qsa := some [rwsEntryBia], nome := some "ACME LTDA" }

/-- Environment: configured gateway that answers with one officer. -/
def provGatewayHit : Providers Nat :=
  { gatewayConfigured := true, gateway := .ok 7 [officerAna],
    brasilapi := .err "down", receitaws := .err "down" }

/-- Environment: no gateway, BrasilAPI answers with one officer. -/
def provPrimaryHit : Providers Nat :=
  { gatewayConfigured := false, gateway := .err "unused",
    brasilapi := .ok 3 [officerAna], receitaws := .err "down" }

/-- Environment: no gateway, BrasilAPI succeeds with an empty officer list. -/
def provPrimaryEmpty : Providers Nat :=
  { gatewayConfigured := false, gateway := .err "unused",
    brasilapi := .ok 3 [], receitaws := .err "down" }

/-- Environment: no gateway, BrasilAPI succeeds without officers, ReceitaWS
answers with the normalized sample officer list. -/
def provAlternateHit : Providers Nat :=
  { gatewayConfigured := false, gateway := .err "unused",
    brasilapi := .ok 3 [], receitaws := .ok 9 (normalizeReceitaws rwsRawSample).2 }

/-- Environment: configured gateway, every adapter raises. -/
def provAllFail : Providers Nat :=
  { gatewayConfigured := true, gateway := .err "timeout g",
    brasilapi := .err "timeout b", receitaws := .err "timeout r" }

/-- When the gateway step does not return (unconfigured, raised, or returned an
empty officer list), the chain continues into the primary step carrying the
gateway's errors and call trace. -/
theorem tryAllProviders_gateway_fallthrough {ρ : Type} (empty : ρ) (p : Providers ρ)
    (alts : Bool)
    (hg : ∀ r q, p.gatewayConfigured = true → p.gateway = Outcome.ok r q → q = []) :
    tryAllProviders empty p alts =
      primaryStep empty p.brasilapi p.receitaws alts (gatewayErrors p) (gatewayCalls p) := by
  rcases p with ⟨gc, gw, pr, alt⟩
  cases gc with
  | false => simp [tryAllProviders, gatewayErrors, gatewayCalls]
  | true =>
    cases gw with
    | ok r q =>
      have hq : q = [] := hg r q rfl rfl
      subst hq
      simp [tryAllProviders, gatewayErrors, gatewayCalls]
    | err m => simp [tryAllProviders, gatewayErrors, gatewayCalls]

/-- C1: when the gateway is configured and its fetch-plus-normalize yields a
non-empty officer list, `try_all_providers` returns the gateway's data and
officers with source "gateway" and an empty error map, having invoked only the
gateway fetch; the statement holds for arbitrary primary and alternate
behaviour in `p`, so the result does not depend on them. -/
theorem gateway_short_circuit {ρ : Type} (empty : ρ) (p : Providers ρ) (raw : ρ)
    (qsa : List Officer) (alts : Bool)
    (hc : p.gatewayConfigured = true) (hg : p.gateway = Outcome.ok raw qsa)
    (hne : qsa ≠ []) :
    tryAllProviders empty p alts =
      { raw := raw, qsa := qsa, source := "gateway", errors := [], calls := ["gateway"] } := by
  rcases p with ⟨gc, gw, pr, alt⟩
  cases hc
  cases hg
  simp [tryAllProviders, List.isEmpty_iff, hne]

/-- Witness for C1 at a concrete environment. -/
theorem gateway_short_circuit_witness :
    tryAllProviders 0 provGatewayHit true =
      { raw := 7, qsa := [officerAna], source := "gateway", errors := [],
        calls := ["gateway"] } :=
  gateway_short_circuit 0 provGatewayHit 7 [officerAna] true rfl rfl
    (List.cons_ne_nil _ _)

/-- C2: with alternates disabled, once the gateway step has fallen through
(unconfigured, raised, or officer-less) a successful BrasilAPI fetch is
authoritative: its data and officers are returned with source "brasilapi"
whether or not the officer list is empty, and the ReceitaWS fetch is never
invoked. -/
theorem primary_authoritative_without_alternates {ρ : Type} (empty : ρ)
    (p : Providers ρ) (raw : ρ) (qsa : List Officer)
    (hg : ∀ r q, p.gatewayConfigured = true → p.gateway = Outcome.ok r q → q = [])
    (hp : p.brasilapi = Outcome.ok raw qsa) :
    tryAllProviders empty p false =
      { raw := raw, qsa := qsa, source := "brasilapi", errors := gatewayErrors p,
        calls := gatewayCalls p ++ ["brasilapi"] } ∧
    "receitaws" ∉ (tryAllProviders empty p false).calls := by
  have h := tryAllProviders_gateway_fallthrough empty p false hg
  rw [h, hp]
  constructor
  · simp [primaryStep]
  · rcases p with ⟨gc, gw, pr, alt⟩
    cases gc <;> simp [primaryStep, gatewayCalls]

/-- Witness for C2 at a concrete environment with an empty primary officer
list. -/
theorem primary_authoritative_without_alternates_witness :
    tryAllProviders 0 provPrimaryEmpty false =
      { raw := 3, qsa := [], source := "brasilapi",
        errors := gatewayErrors provPrimaryEmpty,
        calls := gatewayCalls provPrimaryEmpty ++ ["brasilapi"] } ∧
    "receitaws" ∉ (tryAllProviders 0 provPrimaryEmpty false).calls :=
  primary_authoritative_without_alternates 0 provPrimaryEmpty 3 []
    (fun _ _ hc _ => by cases hc) rfl

/-- C3: with alternates allowed, a gateway fall-through and a primary success
with zero officers, a ReceitaWS fetch whose normalization yields a non-empty
list wins: the source is "receitaws" and the returned officers are exactly the
normalized ReceitaWS list, each entry remapped to nome / qualificacao with
`qual` becoming `qualificacao`. -/
theorem alternate_fallback {ρ : Type} (empty : ρ) (p : Providers ρ) (praw base : ρ)
    (w : RwsRaw)
    (hg : ∀ r q, p.gatewayConfigured = true → p.gateway = Outcome.ok r q → q = [])
    (hp : p.brasilapi = Outcome.ok praw [])
    (ha : p.receitaws = Outcome.ok base (normalizeReceitaws w).2)
    (hne : (normalizeReceitaws w).2 ≠ []) :
    tryAllProviders empty p true =
      { raw := base, qsa := (normalizeReceitaws w).2, source := "receitaws",
        errors := gatewayErrors p,
        calls := gatewayCalls p ++ ["brasilapi", "receitaws"] } ∧
    (normalizeReceitaws w).2 =
      (w.qsa.getD []).map (fun i =>
        { nome_socio := none, nome := i.nome, nome_rep_legal := none,
          qualificacao_socio := none, qualificacao := i.qual, qual := none }) := by
  have h := tryAllProviders_gateway_fallthrough empty p true hg
  rw [h, hp]
  constructor
  · simp [primaryStep, alternateStep, ha, List.isEmpty_iff, hne]
  · rfl

/-- Witness for C3 at a concrete environment. -/
theorem alternate_fallback_witness :
    tryAllProviders 0 provAlternateHit true =
      { raw := 9, qsa := (normalizeReceitaws rwsRawSample).2, source := "receitaws",
        errors := gatewayErrors provAlternateHit,
        calls := gatewayCalls provAlternateHit ++ ["brasilapi", "receitaws"] } ∧
    (normalizeReceitaws rwsRawSample).2 =
      (rwsRawSample.qsa.getD []).map (fun i =>
        { nome_socio := none, nome := i.nome, nome_rep_legal := none,
          qualificacao_socio := none, qualificacao := i.qual, qual := none }) :=
  alternate_fallback 0 provAlternateHit 3 9 rwsRawSample
    (fun _ _ hc _ => by cases hc) rfl rfl (by decide)

/-- C4: with the gateway configured, alternates allowed, and all three adapter
fetches raising, the call still returns: empty data, empty officer list,
source "desconhecido", and an error map whose keys are exactly the three
provider names, each carrying its (non-empty) message. -/
theorem degraded_when_all_fail {ρ : Type} (empty : ρ) (p : Providers ρ)
    (m1 m2 m3 : String)
    (hc : p.gatewayConfigured = true) (h1 : p.gateway = Outcome.err m1)
    (h2 : p.brasilapi = Outcome.err m2) (h3 : p.receitaws = Outcome.err m3)
    (hm1 : m1 ≠ "") (hm2 : m2 ≠ "") (hm3 : m3 ≠ "") :
    tryAllProviders empty p true =
      { raw := empty, qsa := [], source := "desconhecido",
        errors := [("gateway", m1), ("brasilapi", m2), ("receitaws", m3)],
        calls := ["gateway", "brasilapi", "receitaws"] } ∧
    (tryAllProviders empty p true).errors.map Prod.fst =
      ["gateway", "brasilapi", "receitaws"] ∧
    ∀ e ∈ (tryAllProviders empty p true).errors, e.2 ≠ "" := by
  rcases p with ⟨gc, gw, pr, alt⟩
  cases hc
  cases h1
  cases h2
  cases h3
  have he : tryAllProviders empty
      (⟨true, Outcome.err m1, Outcome.err m2, Outcome.err m3⟩ : Providers ρ) true =
      { raw := empty, qsa := [], source := "desconhecido",
        errors := [("gateway", m1), ("brasilapi", m2), ("receitaws", m3)],
        calls := ["gateway", "brasilapi", "receitaws"] } := by
    simp [tryAllProviders, primaryStep, alternateStep]
  refine ⟨he, ?_, ?_⟩
  · rw [he]
    rfl
  · rw [he]
    intro e hmem
    simp only [List.mem_cons] at hmem
    rcases hmem with h | h | h | h
    · rw [h]; exact hm1
    · rw [h]; exact hm2
    · rw [h]; exact hm3
    · cases h

/-- Normalizing an already-normalized identifier changes nothing. -/
theorem onlyDigits_idem (x : String) : onlyDigits (onlyDigits x) = onlyDigits x := by
  simp [onlyDigits, List.filter_filter]

/-- C7: for every input whose digit content is exactly 14 characters,
formatting the normalized identifier produces exactly the canonical
NN.NNN.NNN/NNNN-NN form built from those 14 digits in order, whatever
punctuation the input interleaves. -/
theorem format_canonical_roundtrip (x : String)
    (h : x.data.countP Char.isDigit = 14) :
    cnpjFormat (onlyDigits x) = canonicalForm14 (onlyDigits x).data := by
  have hl : (onlyDigits x).data.length = 14 := by
    simpa [onlyDigits, ← List.countP_eq_length_filter] using h
  simp [cnpjFormat, canonicalForm14, zfill14, onlyDigits_idem, hl]

/-- Witness for C7 at a punctuated concrete input. -/
theorem format_canonical_roundtrip_witness :
    cnpjFormat (onlyDigits "11.222.333/0001-81") =
      canonicalForm14 (onlyDigits "11.222.333/0001-81").data :=
  format_canonical_roundtrip "11.222.333/0001-81" (by decide)

/-- C9: normalizing the punctuated sample yields 14 digits; the batch-mode
filter keeps exactly the rows whose value strips to 14 digits, so the sample
column of three values yields exactly two processed rows, and in general every
kept row is a 14-digit normalization of some input row and the number of
processed rows counts exactly the well-formed inputs. -/
theorem batch_drops_malformed_rows :
    (onlyDigits "11.222.333/0001-81").length = 14 ∧
    batchCnpjs ["11222333000181", "bad", "11.222.333/0001-81"] =
      ["11222333000181", "11222333000181"] ∧
    (batchCnpjs ["11222333000181", "bad", "11.222.333/0001-81"]).length = 2 ∧
    (∀ col : List String, ∀ c ∈ batchCnpjs col,
      c.length = 14 ∧ ∃ x ∈ col, onlyDigits x = c) ∧
    (∀ col : List String, (batchCnpjs col).length =
      col.countP (fun x => (onlyDigits x).length == 14)) := by
  refine ⟨by decide, by decide, by decide, ?_, ?_⟩
  · intro col c hc
    simp only [batchCnpjs, List.mem_filter, List.mem_map] at hc
    obtain ⟨⟨x, hx, hxc⟩, hlen⟩ := hc
    exact ⟨by simpa using hlen, x, hx, hxc⟩
  · intro col
    rw [batchCnpjs, ← List.countP_eq_length_filter, List.countP_map]
    rfl

/-- Witness for C9's universally quantified part at the sample column. -/
theorem batch_drops_malformed_rows_witness :
    ("11222333000181" : String).length = 14 ∧
    ∃ x ∈ ["11222333000181", "bad", "11.222.333/0001-81"],
      onlyDigits x = "11222333000181" :=
  batch_drops_malformed_rows.2.2.2.1
    ["11222333000181", "bad", "11.222.333/0001-81"] "11222333000181" (by decide)

/-- `startsWithL n h` holds exactly when `h` extends `n`. -/
theorem startsWithL_iff (n : List Char) : ∀ h : List Char,
    startsWithL n h = true ↔ ∃ t, h = n ++ t := by
  induction n with
  | nil => intro h; simp [startsWithL]
  | cons a as ih =>
    intro h
    cases h with
    | nil => simp [startsWithL]
    | cons b bs =>
      simp only [startsWithL, Bool.and_eq_true, beq_iff_eq, ih, List.cons_append,
        List.cons.injEq]
      constructor
      · rintro ⟨rfl, t, ht⟩
        exact ⟨t, rfl, ht⟩
      · rintro ⟨t, rfl, ht⟩
        exact ⟨rfl, t, ht⟩

/-- `hasSub n h` holds exactly when `n` occurs contiguously inside `h`: the
meaning of Python substring containment. -/
theorem hasSub_iff (n : List Char) : ∀ h : List Char,
    hasSub n h = true ↔ ∃ pre post, h = pre ++ n ++ post := by
  intro h
  induction h with
  | nil =>
    simp only [hasSub, startsWithL_iff]
    constructor
    · rintro ⟨t, ht⟩
      obtain ⟨hn, hts⟩ := List.append_eq_nil.mp ht.symm
      exact ⟨[], [], by simp [hn]⟩
    · rintro ⟨pre, post, hp⟩
      have h0 := List.append_eq_nil.mp hp.symm
      obtain ⟨h1, hpost⟩ := h0
      obtain ⟨hpre, hn⟩ := List.append_eq_nil.mp h1
      exact ⟨[], by simp [hn]⟩
  | cons c cs ih =>
    constructor
    · intro hh
      simp only [hasSub, Bool.or_eq_true] at hh
      rcases hh with hs | ht
      · obtain ⟨t, htl⟩ := (startsWithL_iff n _).mp hs
        exact ⟨[], t, by simpa using htl⟩
      · obtain ⟨pre, post, hp⟩ := ih.mp ht
        exact ⟨c :: pre, post, by simp [hp]⟩
    · rintro ⟨pre, post, hp⟩
      simp only [hasSub, Bool.or_eq_true]
      cases pre with
      | nil =>
        exact Or.inl ((startsWithL_iff n _).mpr ⟨post, by simpa using hp⟩)
      | cons p ps =>
        simp only [List.cons_append, List.cons.injEq, List.append_assoc] at hp
        refine Or.inr (ih.mpr ⟨ps, post, ?_⟩)
        rw [hp.2, List.append_assoc]

/-- C8: `extract_likely_signers` classifies every entry in order; an entry is
flagged a likely signer exactly when some keyword of the fixed list occurs as
a contiguous substring of the stripped, lower-cased role text; the role
"Sócio-Administrador" is flagged, the role "Sócio sem poderes de gestão" is
not, and an entry with no name or role fields gets the literal placeholders
instead of failing. -/
theorem classifier_keyword_substring (l : List Officer) :
    extractLikelySigners l = l.map classifyOfficer ∧
    (∀ it : Officer, (classifyOfficer it).provavel_assinante = true ↔
      ∃ k ∈ LIKELY_SIGNER_KEYWORDS, ∃ pre post : List Char,
        lowerChars (stripChars (officerQual it).data) = pre ++ k.data ++ post) ∧
    (classifyOfficer { qualificacao := some "Sócio-Administrador" }).provavel_assinante
      = true ∧
    (classifyOfficer { qualificacao := some "Sócio sem poderes de gestão" }).provavel_assinante
      = false ∧
    (classifyOfficer { }).nome = "(sem nome)" ∧
    (classifyOfficer { }).qualificacao = "(sem qualificação)" := by
  refine ⟨rfl, ?_, by decide, by decide, by decide, by decide⟩
  intro it
  simp only [classifyOfficer, List.any_eq_true]
  constructor
  · rintro ⟨k, hk, hsub⟩
    exact ⟨k, hk, (hasSub_iff _ _).mp hsub⟩
  · rintro ⟨k, hk, pre, post, hp⟩
    exact ⟨k, hk, (hasSub_iff _ _).mpr ⟨pre, post, hp⟩⟩

/-- Witness for C8's containment characterization at a concrete entry. -/
theorem classifier_keyword_substring_witness :
    (classifyOfficer { qualificacao := some "Sócio-Administrador" }).provavel_assinante = true
      ↔ ∃ k ∈ LIKELY_SIGNER_KEYWORDS, ∃ pre post : List Char,
        lowerChars (stripChars (officerQual
          ({ qualificacao := some "Sócio-Administrador" } : Officer)).data) =
          pre ++ k.data ++ post :=
  (classifier_keyword_substring []).2.1 { qualificacao := some "Sócio-Administrador" }

/-- Characters with the same code point are equal. -/
theorem char_toNat_inj {a b : Char} (h : a.toNat = b.toNat) : a = b := by
  have h2 := congrArg Char.ofNat h
  rwa [Char.ofNat_toNat, Char.ofNat_toNat] at h2

/-- Digit characters with the same numeric value are equal. -/
theorem digitVal_inj {a b : Char} (ha : a.isDigit = true) (hb : b.isDigit = true)
    (h : digitVal a = digitVal b) : a = b := by
  have ha2 : 48 ≤ a.toNat ∧ a.toNat ≤ 57 := by
    simp [Char.isDigit] at ha
    exact ha
  have hb2 : 48 ≤ b.toNat ∧ b.toNat ≤ 57 := by
    simp [Char.isDigit] at hb
    exact hb
  unfold digitVal at h
  have h0 : '0'.toNat = 48 := rfl
  rw [h0] at h
  apply char_toNat_inj
  omega

/-- The weighted sum over digit characters equals the weighted sum over their
numeric values. -/
theorem zip_map_digitVal (nums : List Char) : ∀ ws : List Nat,
    ((nums.zip ws).map (fun p => digitVal p.1 * p.2)).sum
      = (((nums.map digitVal).zip ws).map (fun p => p.1 * p.2)).sum := by
  induction nums with
  | nil => intro ws; simp
  | cons c cs ih =>
    intro ws
    cases ws with
    | nil => simp
    | cons w wst => simp [ih]

/-- The source check-digit pass produces a digit character whose numeric value
is the reference pass on the numeric digits, with the same weight choice. -/
theorem calcDV_spec (nums : List Char) :
    (calcDV nums).isDigit = true ∧
    digitVal (calcDV nums) =
      specDV (nums.map digitVal) (if nums.length == 12 then cnpjW12 else cnpjW13) := by
  have key : ∀ r : Nat, r < 11 →
      (if r < 2 then '0' else Char.ofNat ('0'.toNat + (11 - r))).isDigit = true ∧
      digitVal (if r < 2 then '0' else Char.ofNat ('0'.toNat + (11 - r))) =
        (if r < 2 then 0 else 11 - r) := by
    intro r hr
    interval_cases r <;> exact ⟨by decide, by decide⟩
  simp only [calcDV, specDV]
  rw [zip_map_digitVal]
  exact key _ (Nat.mod_lt _ (by norm_num))

/-- `cnpj_is_valid` written out with its branches explicit. -/
theorem cnpjIsValid_eq (s : String) :
    cnpjIsValid s =
      (if ((onlyDigits s).data.length != 14) = true then false
       else if ((onlyDigits s).data ==
           List.replicate 14 ((onlyDigits s).data.headD '0')) = true then false
       else ((onlyDigits s).data.drop 12 ==
         [calcDV ((onlyDigits s).data.take 12),
          calcDV ((onlyDigits s).data.take 12 ++
            [calcDV ((onlyDigits s).data.take 12)])])) := rfl

/-- C6 counterexample: the spec's sentence, read literally, prepends the first
computed digit to the 12-digit base before the second pass; on the well-formed
input 11222333000181 the code validates true, yet its last two digits differ
from the prepend-reference's pair, so validity is not equivalence with the
literal prepend algorithm. -/
theorem cnpj_prepend_reference_refuted :
    (onlyDigits "11222333000181").data.length = 14 ∧
    (onlyDigits "11222333000181").data ≠
      List.replicate 14 ((onlyDigits "11222333000181").data.headD '0') ∧
    cnpjIsValid "11222333000181" = true ∧
    ((onlyDigits "11222333000181").data.map digitVal).drop 12 ≠
      [(specCheckDigitsPrepend
          (((onlyDigits "11222333000181").data.map digitVal).take 12)).1,
       (specCheckDigitsPrepend
          (((onlyDigits "11222333000181").data.map digitVal).take 12)).2] := by
  decide

/-- C6 (amended: the first computed digit is APPENDED to the 12-digit base
before the second pass, as the code and the standard algorithm do): validation
is false on digit content of wrong length or on fourteen identical digits, and
on any other 14-digit content it is true exactly when the last two digits are
the reference pair; 11222333000181 validates true and 11111111111111 false. -/
theorem cnpj_is_valid_reference (s : String) :
    (((onlyDigits s).data.length ≠ 14 ∨
      (onlyDigits s).data = List.replicate 14 ((onlyDigits s).data.headD '0')) →
      cnpjIsValid s = false) ∧
    ((onlyDigits s).data.length = 14 →
      (onlyDigits s).data ≠ List.replicate 14 ((onlyDigits s).data.headD '0') →
      (cnpjIsValid s = true ↔
        ((onlyDigits s).data.map digitVal).drop 12 =
          [(specCheckDigits (((onlyDigits s).data.map digitVal).take 12)).1,
           (specCheckDigits (((onlyDigits s).data.map digitVal).take 12)).2])) ∧
    cnpjIsValid "11222333000181" = true ∧
    cnpjIsValid "11111111111111" = false := by
  refine ⟨?_, ?_, by decide, by decide⟩
  · rintro (hne | hrep)
    · rw [cnpjIsValid_eq, if_pos (bne_iff_ne.mpr hne)]
    · have hlen : (onlyDigits s).data.length = 14 := by rw [hrep]; simp
      rw [cnpjIsValid_eq, if_neg (by rw [hlen]; decide), if_pos (beq_iff_eq.mpr hrep)]
  · intro hlen hns
    have hdig : ∀ c ∈ (onlyDigits s).data, c.isDigit = true := by
      intro c hc
      simp only [onlyDigits] at hc
      exact List.of_mem_filter hc
    rw [cnpjIsValid_eq, if_neg (by rw [hlen]; decide),
      if_neg (by rw [beq_eq_false_iff_ne.mpr hns]; decide)]
    generalize hgen : (onlyDigits s).data = d at hlen hns hdig ⊢
    have htl : (d.take 12).length = 12 := by
      rw [List.length_take]
      omega
    obtain ⟨h1dig, h1val⟩ := calcDV_spec (d.take 12)
    rw [htl] at h1val
    simp only [show ((12 : Nat) == 12) = true from rfl, if_true] at h1val
    obtain ⟨h2dig, h2val⟩ := calcDV_spec (d.take 12 ++ [calcDV (d.take 12)])
    have htl2 : (d.take 12 ++ [calcDV (d.take 12)]).length = 13 := by
      simp [htl]
    rw [htl2] at h2val
    simp only [show ((13 : Nat) == 12) = false from rfl, Bool.false_eq_true,
      if_false] at h2val
    have hbase : (d.map digitVal).take 12 = (d.take 12).map digitVal :=
      (List.map_take _ _ _).symm
    have hspec1 : (specCheckDigits ((d.map digitVal).take 12)).1 =
        digitVal (calcDV (d.take 12)) := by
      rw [hbase]
      simp only [specCheckDigits]
      rw [h1val]
    have hspec2 : (specCheckDigits ((d.map digitVal).take 12)).2 =
        digitVal (calcDV (d.take 12 ++ [calcDV (d.take 12)])) := by
      rw [hbase]
      simp only [specCheckDigits]
      rw [← h1val, h2val]
      simp [List.map_append]
    have hdrop : (d.map digitVal).drop 12 = (d.drop 12).map digitVal :=
      (List.map_drop _ _ _).symm
    rw [hdrop, hspec1, hspec2]
    constructor
    · intro hbq
      rw [beq_iff_eq] at hbq
      rw [hbq]
      rfl
    · intro hmap
      have hlen2 : (d.drop 12).length = 2 := by
        rw [List.length_drop]
        omega
      obtain ⟨x, y, hxy⟩ := List.length_eq_two.mp hlen2
      rw [hxy] at hmap ⊢
      simp only [List.map_cons, List.map_nil, List.cons.injEq, and_true] at hmap
      have hx : x ∈ d := List.drop_subset _ _ (by rw [hxy]; exact List.mem_cons_self _ _)
      have hy : y ∈ d := List.drop_subset _ _
        (by rw [hxy]; exact List.mem_cons_of_mem _ (List.mem_cons_self _ _))
      have hxe : x = calcDV (d.take 12) := digitVal_inj (hdig x hx) h1dig hmap.1
      have hye : y = calcDV (d.take 12 ++ [calcDV (d.take 12)]) :=
        digitVal_inj (hdig y hy) h2dig hmap.2
      rw [hxe, hye]
      exact beq_self_eq_true _

/-- Witness for C6's amended theorem at concrete inputs. -/
theorem cnpj_is_valid_reference_witness :
    cnpjIsValid "123" = false ∧ cnpjIsValid "11222333000181" = true :=
  ⟨(cnpj_is_valid_reference "123").1 (Or.inl (by decide)),
   (cnpj_is_valid_reference "11222333000181").2.2.1⟩

/-- Every error recorded before the alternate step survives it. -/
theorem alternateStep_errors_sub {ρ : Type} (alt : Outcome ρ) (b : Bool) (raw2 : ρ)
    (qsa : List Officer) (errors : List (String × String)) (calls : List String) :
    ∀ e ∈ errors, e ∈ (alternateStep alt b raw2 qsa errors calls).errors := by
  intro e he
  cases b with
  | false => simpa [alternateStep] using he
  | true =>
    cases alt with
    | ok raw3 qsa2 =>
      by_cases h : qsa2.isEmpty <;> simp [alternateStep, h, he]
    | err m =>
      simp only [alternateStep]
      exact List.mem_append_left _ he

/-- Every call recorded before the alternate step survives it. -/
theorem alternateStep_calls_sub {ρ : Type} (alt : Outcome ρ) (b : Bool) (raw2 : ρ)
    (qsa : List Officer) (errors : List (String × String)) (calls : List String) :
    ∀ c ∈ calls, c ∈ (alternateStep alt b raw2 qsa errors calls).calls := by
  intro c hc
  cases b with
  | false => simpa [alternateStep] using hc
  | true =>
    cases alt with
    | ok raw3 qsa2 =>
      by_cases h : qsa2.isEmpty <;> simp [alternateStep, h] <;> exact Or.inl hc
    | err m =>
      simp only [alternateStep]
      exact List.mem_append_left _ hc

/-- When alternates are allowed the alternate step always fetches ReceitaWS. -/
theorem alternateStep_calls_receitaws {ρ : Type} (alt : Outcome ρ) (raw2 : ρ)
    (qsa : List Officer) (errors : List (String × String)) (calls : List String) :
    "receitaws" ∈ (alternateStep alt true raw2 qsa errors calls).calls := by
  cases alt with
  | ok raw3 qsa2 => by_cases h : qsa2.isEmpty <;> simp [alternateStep, h]
  | err m => simp [alternateStep]

/-- Every error recorded before the primary step survives it. -/
theorem primaryStep_errors_sub {ρ : Type} (empty : ρ) (pri alt : Outcome ρ) (b : Bool)
    (errors : List (String × String)) (calls : List String) :
    ∀ e ∈ errors, e ∈ (primaryStep empty pri alt b errors calls).errors := by
  intro e he
  cases pri with
  | ok raw2 qsa =>
    by_cases h : (!qsa.isEmpty || !b) = true
    · simp [primaryStep, h, he]
    · simp only [primaryStep, h, if_false, Bool.false_eq_true, ite_false]
      exact alternateStep_errors_sub _ _ _ _ _ _ e he
  | err m =>
    exact alternateStep_errors_sub _ _ _ _ _ _ e (List.mem_append_left _ he)

/-- The primary step always fetches BrasilAPI. -/
theorem primaryStep_calls_brasilapi {ρ : Type} (empty : ρ) (pri alt : Outcome ρ) (b : Bool)
    (errors : List (String × String)) (calls : List String) :
    "brasilapi" ∈ (primaryStep empty pri alt b errors calls).calls := by
  have hmem : "brasilapi" ∈ calls ++ ["brasilapi"] := by simp
  cases pri with
  | ok raw2 qsa =>
    by_cases h : (!qsa.isEmpty || !b) = true
    · simp [primaryStep, h]
    · simp only [primaryStep, h, if_false, Bool.false_eq_true, ite_false]
      exact alternateStep_calls_sub _ _ _ _ _ _ _ hmem
  | err m =>
    exact alternateStep_calls_sub _ _ _ _ _ _ _ hmem

/-- C5: for every combination of adapter outcomes and both flag values the
chain is total (the embedding is a function), an exception from an invoked
adapter is recorded in the error map under that provider's name, and the next
adapter in the fixed order is still fetched: a configured failing gateway
still leads to a BrasilAPI fetch, a failing BrasilAPI is followed by a
ReceitaWS fetch whenever alternates are allowed, and every invoked failing
adapter appears in the error map. -/
theorem provider_errors_never_abort {ρ : Type} (empty : ρ) (p : Providers ρ) (alts : Bool) :
    (∀ m, p.gatewayConfigured = true → p.gateway = Outcome.err m →
      ("gateway", m) ∈ (tryAllProviders empty p alts).errors ∧
      "brasilapi" ∈ (tryAllProviders empty p alts).calls) ∧
    (∀ m, "brasilapi" ∈ (tryAllProviders empty p alts).calls →
      p.brasilapi = Outcome.err m →
      ("brasilapi", m) ∈ (tryAllProviders empty p alts).errors ∧
      (alts = true → "receitaws" ∈ (tryAllProviders empty p alts).calls)) ∧
    (∀ m, "receitaws" ∈ (tryAllProviders empty p alts).calls →
      p.receitaws = Outcome.err m →
      ("receitaws", m) ∈ (tryAllProviders empty p alts).errors) := by
  rcases p with ⟨gc, gw, pr, alt⟩
  refine ⟨?_, ?_, ?_⟩
  · intro m hc hg
    cases hc
    cases hg
    have hred : tryAllProviders empty
        (⟨true, Outcome.err m, pr, alt⟩ : Providers ρ) alts =
        primaryStep empty pr alt alts [("gateway", m)] ["gateway"] := rfl
    rw [hred]
    exact ⟨primaryStep_errors_sub _ _ _ _ _ _ _ (by simp),
      primaryStep_calls_brasilapi _ _ _ _ _ _⟩
  · intro m hcall hp
    cases hp
    cases gc with
    | false =>
      have hred : tryAllProviders empty
          (⟨false, gw, Outcome.err m, alt⟩ : Providers ρ) alts =
          alternateStep alt alts empty [] [("brasilapi", m)] ["brasilapi"] := rfl
      rw [hred]
      refine ⟨alternateStep_errors_sub _ _ _ _ _ _ _ (by simp), ?_⟩
      rintro rfl
      exact alternateStep_calls_receitaws _ _ _ _ _
    | true =>
      cases gw with
      | ok graw gqsa =>
        cases gqsa with
        | nil =>
          have hred : tryAllProviders empty
              (⟨true, Outcome.ok graw [], Outcome.err m, alt⟩ : Providers ρ) alts =
              alternateStep alt alts empty [] [("brasilapi", m)] ["gateway", "brasilapi"] := rfl
          rw [hred]
          refine ⟨alternateStep_errors_sub _ _ _ _ _ _ _ (by simp), ?_⟩
          rintro rfl
          exact alternateStep_calls_receitaws _ _ _ _ _
        | cons g1 gt =>
          have hred : tryAllProviders empty
              (⟨true, Outcome.ok graw (g1 :: gt), Outcome.err m, alt⟩ : Providers ρ) alts =
              { raw := graw, qsa := g1 :: gt, source := "gateway", errors := [],
                calls := ["gateway"] } := by
            simp [tryAllProviders]
          rw [hred] at hcall ⊢
          simp at hcall
      | err gm =>
        have hred : tryAllProviders empty
            (⟨true, Outcome.err gm, Outcome.err m, alt⟩ : Providers ρ) alts =
            alternateStep alt alts empty []
              ([("gateway", gm)] ++ [("brasilapi", m)]) ["gateway", "brasilapi"] := rfl
        rw [hred]
        refine ⟨alternateStep_errors_sub _ _ _ _ _ _ _ (by simp), ?_⟩
        rintro rfl
        exact alternateStep_calls_receitaws _ _ _ _ _
  · intro m hcall ha
    cases ha
    cases alts with
    | false =>
      exfalso
      cases gc with
      | false =>
        cases pr with
        | ok praw pqsa =>
          have hred : tryAllProviders empty
              (⟨false, gw, Outcome.ok praw pqsa, Outcome.err m⟩ : Providers ρ) false =
              { raw := praw, qsa := pqsa, source := "brasilapi", errors := [],
                calls := ["brasilapi"] } := by
            simp [tryAllProviders, primaryStep]
          rw [hred] at hcall
          simp at hcall
        | err pm =>
          have hred : tryAllProviders empty
              (⟨false, gw, Outcome.err pm, Outcome.err m⟩ : Providers ρ) false =
              { raw := empty, qsa := [], source := "desconhecido",
                errors := [("brasilapi", pm)], calls := ["brasilapi"] } := by
            simp [tryAllProviders, primaryStep, alternateStep]
          rw [hred] at hcall
          simp at hcall
      | true =>
        cases gw with
        | ok graw gqsa =>
          cases gqsa with
          | nil =>
            cases pr with
            | ok praw pqsa =>
              have hred : tryAllProviders empty
                  (⟨true, Outcome.ok graw [], Outcome.ok praw pqsa,
                    Outcome.err m⟩ : Providers ρ) false =
                  { raw := praw, qsa := pqsa, source := "brasilapi", errors := [],
                    calls := ["gateway", "brasilapi"] } := by
                simp [tryAllProviders, primaryStep]
              rw [hred] at hcall
              simp at hcall
            | err pm =>
              have hred : tryAllProviders empty
                  (⟨true, Outcome.ok graw [], Outcome.err pm,
                    Outcome.err m⟩ : Providers ρ) false =
                  { raw := empty, qsa := [], source := "desconhecido",
                    errors := [("brasilapi", pm)],
                    calls := ["gateway", "brasilapi"] } := by
                simp [tryAllProviders, primaryStep, alternateStep]
              rw [hred] at hcall
              simp at hcall
          | cons g1 gt =>
            have hred : tryAllProviders empty
                (⟨true, Outcome.ok graw (g1 :: gt), pr,
                  Outcome.err m⟩ : Providers ρ) false =
                { raw := graw, qsa := g1 :: gt, source := "gateway", errors := [],
                  calls := ["gateway"] } := by
              simp [tryAllProviders]
            rw [hred] at hcall
            simp at hcall
        | err gm =>
          cases pr with
          | ok praw pqsa =>
            have hred : tryAllProviders empty
                (⟨true, Outcome.err gm, Outcome.ok praw pqsa,
                  Outcome.err m⟩ : Providers ρ) false =
                { raw := praw, qsa := pqsa, source := "brasilapi",
                  errors := [("gateway", gm)],
                  calls := ["gateway", "brasilapi"] } := by
              simp [tryAllProviders, primaryStep]
            rw [hred] at hcall
            simp at hcall
          | err pm =>
            have hred : tryAllProviders empty
                (⟨true, Outcome.err gm, Outcome.err pm,
                  Outcome.err m⟩ : Providers ρ) false =
                { raw := empty, qsa := [], source := "desconhecido",
                  errors := [("gateway", gm), ("brasilapi", pm)],
                  calls := ["gateway", "brasilapi"] } := by
              simp [tryAllProviders, primaryStep, alternateStep]
            rw [hred] at hcall
            simp at hcall
    | true =>
      cases gc with
      | false =>
        cases pr with
        | ok praw pqsa =>
          cases pqsa with
          | nil =>
            have hred : tryAllProviders empty
                (⟨false, gw, Outcome.ok praw [], Outcome.err m⟩ : Providers ρ) true =
                { raw := praw, qsa := [], source := "desconhecido",
                  errors := [("receitaws", m)],
                  calls := ["brasilapi", "receitaws"] } := by
              simp [tryAllProviders, primaryStep, alternateStep]
            rw [hred]
            simp
          | cons p1 pt =>
            have hred : tryAllProviders empty
                (⟨false, gw, Outcome.ok praw (p1 :: pt), Outcome.err m⟩ : Providers ρ) true =
                { raw := praw, qsa := p1 :: pt, source := "brasilapi", errors := [],
                  calls := ["brasilapi"] } := by
              simp [tryAllProviders, primaryStep]
            rw [hred] at hcall
            simp at hcall
        | err pm =>
          have hred : tryAllProviders empty
              (⟨false, gw, Outcome.err pm, Outcome.err m⟩ : Providers ρ) true =
              { raw := empty, qsa := [], source := "desconhecido",
                errors := [("brasilapi", pm), ("receitaws", m)],
                calls := ["brasilapi", "receitaws"] } := by
            simp [tryAllProviders, primaryStep, alternateStep]
          rw [hred]
          simp
      | true =>
        cases gw with
        | ok graw gqsa =>
          cases gqsa with
          | nil =>
            cases pr with
            | ok praw pqsa =>
              cases pqsa with
              | nil =>
                have hred : tryAllProviders empty
                    (⟨true, Outcome.ok graw [], Outcome.ok praw [],
                      Outcome.err m⟩ : Providers ρ) true =
                    { raw := praw, qsa := [], source := "desconhecido",
                      errors := [("receitaws", m)],
                      calls := ["gateway", "brasilapi", "receitaws"] } := by
                  simp [tryAllProviders, primaryStep, alternateStep]
                rw [hred]
                simp
              | cons p1 pt =>
                have hred : tryAllProviders empty
                    (⟨true, Outcome.ok graw [], Outcome.ok praw (p1 :: pt),
                      Outcome.err m⟩ : Providers ρ) true =
                    { raw := praw, qsa := p1 :: pt, source := "brasilapi",
                      errors := [], calls := ["gateway", "brasilapi"] } := by
                  simp [tryAllProviders, primaryStep]
                rw [hred] at hcall
                simp at hcall
            | err pm =>
              have hred : tryAllProviders empty
                  (⟨true, Outcome.ok graw [], Outcome.err pm,
                    Outcome.err m⟩ : Providers ρ) true =
                  { raw := empty, qsa := [], source := "desconhecido",
                    errors := [("brasilapi", pm), ("receitaws", m)],
                    calls := ["gateway", "brasilapi", "receitaws"] } := by
                simp [tryAllProviders, primaryStep, alternateStep]
              rw [hred]
              simp
          | cons g1 gt =>
            have hred : tryAllProviders empty
                (⟨true, Outcome.ok graw (g1 :: gt), pr,
                  Outcome.err m⟩ : Providers ρ) true =
                { raw := graw, qsa := g1 :: gt, source := "gateway", errors := [],
                  calls := ["gateway"] } := by
              simp [tryAllProviders]
            rw [hred] at hcall
            simp at hcall
        | err gm =>
          cases pr with
          | ok praw pqsa =>
            cases pqsa with
            | nil =>
              have hred : tryAllProviders empty
                  (⟨true, Outcome.err gm, Outcome.ok praw [],
                    Outcome.err m⟩ : Providers ρ) true =
                  { raw := praw, qsa := [], source := "desconhecido",
                    errors := [("gateway", gm), ("receitaws", m)],
                    calls := ["gateway", "brasilapi", "receitaws"] } := by
                simp [tryAllProviders, primaryStep, alternateStep]
              rw [hred]
              simp
            | cons p1 pt =>
              have hred : tryAllProviders empty
                  (⟨true, Outcome.err gm, Outcome.ok praw (p1 :: pt),
                    Outcome.err m⟩ : Providers ρ) true =
                  { raw := praw, qsa := p1 :: pt, source := "brasilapi",
                    errors := [("gateway", gm)],
                    calls := ["gateway", "brasilapi"] } := by
                simp [tryAllProviders, primaryStep]
              rw [hred] at hcall
              simp at hcall
          | err pm =>
            have hred : tryAllProviders empty
                (⟨true, Outcome.err gm, Outcome.err pm,
                  Outcome.err m⟩ : Providers ρ) true =
                { raw := empty, qsa := [], source := "desconhecido",
                  errors := [("gateway", gm), ("brasilapi", pm), ("receitaws", m)],
                  calls := ["gateway", "brasilapi", "receitaws"] } := by
              simp [tryAllProviders, primaryStep, alternateStep]
            rw [hred]
            simp

/-- Witness for C5 at a concrete environment where the gateway raises. -/
theorem provider_errors_never_abort_witness :
    (("gateway", "timeout g") ∈ (tryAllProviders 0 provAllFail true).errors ∧
      "brasilapi" ∈ (tryAllProviders 0 provAllFail true).calls) ∧
    ("receitaws", "timeout r") ∈ (tryAllProviders 0 provAllFail true).errors :=
  ⟨(provider_errors_never_abort 0 provAllFail true).1 "timeout g" rfl rfl,
    (provider_errors_never_abort 0 provAllFail true).2.2 "timeout r" (by decide) rfl⟩

/-- C10: for every environment and both flag values, a result labelled
"gateway" or "receitaws" carries a non-empty officer list, a result labelled
"desconhecido" carries an empty one, and a "brasilapi" result with an empty
officer list can only arise with alternates disabled. -/
theorem source_officer_invariant {ρ : Type} (empty : ρ) (p : Providers ρ) (alts : Bool) :
    ((tryAllProviders empty p alts).source = "gateway" →
      (tryAllProviders empty p alts).qsa ≠ []) ∧
    ((tryAllProviders empty p alts).source = "receitaws" →
      (tryAllProviders empty p alts).qsa ≠ []) ∧
    ((tryAllProviders empty p alts).source = "desconhecido" →
      (tryAllProviders empty p alts).qsa = []) ∧
    ((tryAllProviders empty p alts).source = "brasilapi" →
      (tryAllProviders empty p alts).qsa = [] → alts = false) := by
  rcases p with ⟨gc, gw, pr, alt⟩
  cases gc <;> cases alts <;>
    rcases gw with ⟨graw, _ | ⟨g1, gt⟩⟩ | gm <;>
    rcases pr with ⟨praw, _ | ⟨p1, pt⟩⟩ | pm <;>
    rcases alt with ⟨araw, _ | ⟨a1, at1⟩⟩ | am <;>
    simp [tryAllProviders, primaryStep, alternateStep]

/-- Witness for C10 at a concrete environment. -/
theorem source_officer_invariant_witness :
    (tryAllProviders 0 provAlternateHit true).source = "receitaws" ∧
    (tryAllProviders 0 provAlternateHit true).qsa ≠ [] :=
  ⟨by decide, (source_officer_invariant 0 provAlternateHit true).2.1 (by decide)⟩

/-- Witness for C4 at a concrete environment. -/
theorem degraded_when_all_fail_witness :
    tryAllProviders 0 provAllFail true =
      { raw := 0, qsa := [], source := "desconhecido",
        errors := [("gateway", "timeout g"), ("brasilapi", "timeout b"),
          ("receitaws", "timeout r")],
        calls := ["gateway", "brasilapi", "receitaws"] } ∧
    (tryAllProviders 0 provAllFail true).errors.map Prod.fst =
      ["gateway", "brasilapi", "receitaws"] ∧
    ∀ e ∈ (tryAllProviders 0 provAllFail true).errors, e.2 ≠ "" :=
  degraded_when_all_fail 0 provAllFail "timeout g" "timeout b" "timeout r"
    rfl rfl rfl rfl (by decide) (by decide) (by decide)
